import Mathlib

/-!
Verification development for the serge chat backend
(src/api/src/serge/routers/auth.py and src/api/src/serge/routers/chat.py).

The Python routers are shallowly embedded as pure Lean functions over an
explicit server state.  External collaborators (the relational user store,
the redis key-value store, the langchain message history, the password
hasher, the JWT codec and the llama.cpp engine) are modelled as explicit
state components or function parameters, following the interfaces the
spec assigns to them.
-/

namespace Serge

/-- Message roles, as carried by langchain SystemMessage / HumanMessage /
AIMessage objects in the transcript. -/
inductive Role where
  | system
  | human
  | ai
deriving DecidableEq, Repr

/-- One transcript entry: a role tag and its text content. -/
structure Message where
  role : Role
  content : String
deriving DecidableEq, Repr

/-- One credential row of a user, as read by auth.py: `auth_type` 0 is the
passwordless default user, 1 is password auth (with a stored secret hash),
2 is the reserved not-yet-implemented variant. -/
structure AuthRow where
  auth_type : Nat
  secret : String
deriving DecidableEq, Repr

/-- A relational ChatRef row `(chat_id, owner)`, the schema behind
serge.schema.user.Chat (called UserChat in chat.py). -/
structure UserChat where
  chat_id : String
  owner : String
deriving DecidableEq, Repr

/-- A user record: username, credential rows, and owned chat refs. -/
structure User where
  username : String
  auth : List AuthRow
  chats : List UserChat
deriving DecidableEq, Repr

/-- Modelled from the spec: `get_user` of serge.crud (external relational
collaborator) looks a user up by username. -/
def get_user (db : List User) (username : String) : Option User :=
  db.find? (fun u => u.username == username)

/-- The three observable outcomes of auth.py `authenticate_user`: Python
returns `None` for an unknown user, the user object when access is
granted, and `False` when no credential matched. -/
inductive AuthResult where
  | noUser
  | granted (u : User)
  | denied
deriving DecidableEq, Repr

/-- auth.py `authenticate_user`, parameterized by the external
`verify_password` collaborator (serge.utils.security).  Mirrors the
control flow: unknown user returns `None`; `0 in auths` returns the user;
`1 in auths` checks the FIRST auth row whose type is 1 (the Python
`[x for x in user.auth if x.auth_type == 1][0]`); `2 in auths` is a pass;
the fall-through returns `False`. -/
def authenticate_user (verify : String → String → Bool) (db : List User)
    (username password : String) : AuthResult :=
  match get_user db username with
  | none => .noUser
  | some user =>
    let auths := user.auth.map (fun a => a.auth_type)
    if 0 ∈ auths then .granted user
    else
      match user.auth.filter (fun a => a.auth_type == 1) with
      | a :: _ => if verify password a.secret then .granted user else .denied
      | [] => .denied

/-- Outcome of the external `decode_access_token` (serge.utils.security):
it may raise a JWTError, return no subject, or return the username. -/
inductive DecodeResult where
  | jwtError
  | noSubject
  | subject (username : String)
deriving DecidableEq, Repr

/-- auth.py `get_current_user`: decodes the token and resolves the user,
failing with the 401 credentials exception (modelled as `Except.error ()`)
when decoding raises, yields no username, or the username is unknown. -/
def get_current_user (decode : String → DecodeResult) (db : List User)
    (token : String) : Except Unit User :=
  match decode token with
  | .jwtError => .error ()
  | .noSubject => .error ()
  | .subject username =>
    match get_user db username with
    | none => .error ()
    | some u => .ok u

/-- auth.py `get_current_active_user`: reads the token cookie; a missing or
empty cookie (Python `if not token`) resolves to the "system" user, and a
cookie that `get_current_user` rejects is logged out and also resolves to
the "system" user. -/
def get_current_active_user (decode : String → DecodeResult) (db : List User)
    (cookie : Option String) : Option User :=
  match cookie with
  | none => get_user db "system"
  | some token =>
    if token = "" then get_user db "system"
    else
      match get_current_user decode db token with
      | .ok u => some u
      | .error _ => get_user db "system"

/-! ## Chat data model and server state (chat.py) -/

/-- The parameter record stored with every chat
(serge.models.chat.ChatParameters).  The float-valued sampling knobs
(temperature, top_p, repeat_penalty) are passed through opaquely to the
inference engine and never inspected by the routers, so they are not
carried here; the remaining fields are. -/
structure ChatParameters where
  model_path : String
  init_prompt : String
  top_k : Nat
  max_tokens : Nat
  n_ctx : Nat
  last_n_tokens_size : Nat
  n_threads : Nat
deriving DecidableEq, Repr

/-- The session blob stored under `chat:{id}` (serge.models.chat.Chat):
id, owner, creation timestamp and parameters. -/
structure Chat where
  id : String
  owner : String
  created : Nat
  params : ChatParameters
deriving DecidableEq, Repr

/-- Keyed lookup in an association list (a redis keyspace). -/
def lookup {α : Type} (l : List (String × α)) (k : String) : Option α :=
  (l.find? (fun p => p.1 == k)).map (fun p => p.2)

/-- Keyed write in an association list (redis SET). -/
def setEntry {α : Type} (l : List (String × α)) (k : String) (v : α) :
    List (String × α) :=
  match l with
  | [] => [(k, v)]
  | (k₁, v₁) :: rest =>
    if k₁ == k then (k, v) :: rest else (k₁, v₁) :: setEntry rest k v

/-- Keyed delete in an association list (redis DEL). -/
def removeEntry {α : Type} (l : List (String × α)) (k : String) :
    List (String × α) :=
  l.filter (fun p => p.1 != k)

/-- The shared mutable stores the chat router touches: the redis existence
set "chats", the per-chat session blobs `chat:{id}`, the per-chat message
logs, and the relational ChatRef rows. -/
structure ServerState where
  chatSet : List String
  blobs : List (String × Chat)
  histories : List (String × List Message)
  refs : List UserChat
deriving DecidableEq, Repr

/-- Modelled from the spec: `readAll` of the ChatHistoryLog
(langchain RedisChatMessageHistory `.messages`, an external collaborator):
the ordered transcript of a chat, empty when the key is absent. -/
def histGet (s : ServerState) (chat_id : String) : List Message :=
  (lookup s.histories chat_id).getD []

/-- Modelled from the spec: `append` of the ChatHistoryLog
(RedisChatMessageHistory `.append`): adds one message at the end of the
ordered transcript. -/
def histAppend (s : ServerState) (chat_id : String) (m : Message) :
    ServerState :=
  { s with histories := setEntry s.histories chat_id (histGet s chat_id ++ [m]) }

/-- Modelled from the spec: `clear` of the ChatHistoryLog
(RedisChatMessageHistory `.clear`): deletes the transcript key. -/
def histClear (s : ServerState) (chat_id : String) : ServerState :=
  { s with histories := removeEntry s.histories chat_id }

/-- The failure modes the chat router raises: the 401 `unauth_error`, the
`ValueError`s, and the 202 "chat in progress" HTTPException. -/
inductive ApiError where
  | unauthorized
  | valueError (msg : String)
  | conflict (msg : String)
deriving DecidableEq, Repr

/-- chat.py `create_new_chat`.  The fresh uuid produced by the Chat model
and the `os.path.exists` check on the model weights are passed in as
`newId` and `modelExists`.  Writes the session blob, records the ChatRef
row (serge.crud.create_chat) and appends it to the user's chat list,
appends the init_prompt as a system message to the (fresh) message
history, and adds the id to the existence set. -/
def create_new_chat (s : ServerState) (u : User) (params : ChatParameters)
    (created : Nat) (newId : String) (modelExists : Bool) :
    Except ApiError (ServerState × User × String) :=
  if !modelExists then
    .error (.valueError "Model weights not found")
  else
    let chat : Chat :=
      { id := newId, owner := u.username, created := created, params := params }
    let s₁ := { s with blobs := setEntry s.blobs newId chat }
    let uc : UserChat := { chat_id := newId, owner := u.username }
    let s₂ := { s₁ with refs := s₁.refs ++ [uc] }
    let u' := { u with chats := u.chats ++ [uc] }
    let s₃ := histAppend s₂ newId ⟨Role.system, params.init_prompt⟩
    let s₄ :=
      { s₃ with chatSet :=
          if newId ∈ s₃.chatSet then s₃.chatSet else s₃.chatSet ++ [newId] }
    .ok (s₄, u', newId)

/-- chat.py `delete_prompt`: after the ownership check, rejects with the
202 "chat in progress" HTTPException when `idx >= len(history.messages)`
(idx is a Python int and may be negative), otherwise clears the log and
replays `history.messages.copy()[:idx]`.  The Python slice `[:idx]` keeps
the first `idx` items for nonnegative idx and all but the last `-idx`
items (clamped at zero) for negative idx. -/
def pySliceTo {α : Type} (l : List α) (idx : Int) : List α :=
  if 0 ≤ idx then l.take idx.toNat
  else l.take (l.length - (-idx).toNat)

def delete_prompt (s : ServerState) (u : User) (chat_id : String) (idx : Int) :
    Except ApiError ServerState :=
  if chat_id ∉ u.chats.map (fun x => x.chat_id) then .error .unauthorized
  else
    let msgs := histGet s chat_id
    if (msgs.length : Int) ≤ idx then
      .error (.conflict "Unable to delete message, chat in progress")
    else
      let kept := pySliceTo msgs idx
      let s₁ := histClear s chat_id
      .ok (kept.foldl (fun st m => histAppend st chat_id m) s₁)

/-- chat.py `delete_chat`: ownership check, existence-set check (raising
`ValueError("Chat does not exist")` on a missing id), removal of the
ChatRef row (serge.crud.remove_chat on the row found by the `next(...)`
scan), transcript clear, blob delete, and existence-set removal. -/
def delete_chat (s : ServerState) (u : User) (chat_id : String) :
    Except ApiError ServerState :=
  if chat_id ∉ u.chats.map (fun x => x.chat_id) then .error .unauthorized
  else if chat_id ∉ s.chatSet then .error (.valueError "Chat does not exist")
  else
    let s₁ :=
      match u.chats.find? (fun x => x.chat_id == chat_id) with
      | some cid => { s with refs := s.refs.erase cid }
      | none => s
    let s₂ := histClear s₁ chat_id
    let s₃ := { s₂ with blobs := removeEntry s₂.blobs chat_id }
    let s₄ := { s₃ with chatSet := s₃.chatSet.filter (fun c => c != chat_id) }
    .ok s₄

/-- chat.py `delete_all_chats`.  The list comprehension
`[delete_chat(x.chat_id, u, db) for x in u.chats]` calls the async
function `delete_chat` without awaiting it: it builds coroutine objects
and immediately discards them, so none of the per-chat deletion bodies
ever run.  The handler then returns True with every store untouched.
The discarded coroutines are modelled by the unused `_pending` list of
suspended `delete_chat` computations. -/
def delete_all_chats (s : ServerState) (u : User) : ServerState × Bool :=
  let _pending : List (Except ApiError ServerState) :=
    u.chats.map (fun x => delete_chat s u x.chat_id)
  (s, true)

/-- The dict returned by chat.py `get_specific_chat`: the parsed session
blob plus the transcript read back under the blob's own id
(`RedisChatMessageHistory(chat.id)`). -/
structure ChatDict where
  id : String
  owner : String
  created : Nat
  params : ChatParameters
  history : List Message
deriving DecidableEq, Repr

/-- chat.py `get_specific_chat`: ownership check, then `_try_get_chat`
(existence-set membership check raising `ValueError("Chat does not
exist")`, then blob fetch and parse — a missing blob makes
`Chat.parse_raw` raise), then the history read. -/
def get_specific_chat (s : ServerState) (u : User) (chat_id : String) :
    Except ApiError ChatDict :=
  if chat_id ∉ u.chats.map (fun x => x.chat_id) then .error .unauthorized
  else if chat_id ∉ s.chatSet then .error (.valueError "Chat does not exist")
  else
    match lookup s.blobs chat_id with
    | none => .error (.valueError "Chat blob missing")
    | some chat =>
      .ok { id := chat.id, owner := chat.owner, created := chat.created,
            params := chat.params, history := histGet s chat.id }

/-- The summary rows built by chat.py `get_all_chats`. -/
structure ChatSummary where
  id : String
  created : Nat
  model : String
  subtitle : String
deriving DecidableEq, Repr

/-- The sequential `[await get_specific_chat(x.chat_id, u) for x in u.chats]`
comprehension: the first failing fetch aborts the whole request. -/
def collectChats (s : ServerState) (u : User) :
    List UserChat → Except ApiError (List ChatDict)
  | [] => .ok []
  | x :: xs => do
    let d ← get_specific_chat s u x.chat_id
    let ds ← collectChats s u xs
    .ok (d :: ds)

/-- The summary row built for one fetched chat: id, created, the model
path, and as subtitle the content of the last history entry —
`chat["history"][-1]["data"]["content"]` — with the IndexError on an
empty history caught and turned into the empty string. -/
def summarize (d : ChatDict) : ChatSummary :=
  { id := d.id, created := d.created, model := d.params.model_path,
    subtitle :=
      match d.history.getLast? with
      | none => ""
      | some m => m.content }

/-- chat.py `get_all_chats`: fetches every owned chat, sorts the dicts by
their `created` field descending (Python `sorted(..., reverse=True)`,
a stable sort, embedded as `mergeSort` with the reversed comparison),
then maps each dict to its summary row. -/
def get_all_chats (s : ServerState) (u : User) :
    Except ApiError (List ChatSummary) := do
  let dicts ← collectChats s u u.chats
  let sorted := dicts.mergeSort (fun a b => b.created ≤ a.created)
  .ok (sorted.map summarize)

/-! ## Streaming inference (chat.py `stream_ask_a_question`) -/

/-- How the fragment loop of `event_generator` terminates: the engine
iterator is exhausted normally, or an exception is raised after the
recorded fragments were produced — either a `UnicodeDecodeError` (the
benign partial multi-byte artifact) or any other exception with its
message text. -/
inductive GenOutcome where
  | success
  | unicodeError
  | otherError (msg : String)
deriving DecidableEq, Repr

/-- The server-sent events yielded by `event_generator`. -/
inductive Event where
  | message (data : String)
  | error
  | close
deriving DecidableEq, Repr

/-- chat.py `stream_ask_a_question.event_generator`, given the fragments
the engine produced before terminating and how it terminated.  Mirrors
the try/except/finally: the loop accumulates `full_answer` and yields one
message event per fragment; the except clause swallows a
`UnicodeDecodeError` (`pass`) but records any other error and yields an
error event; the finally clause appends the system diagnostic when an
error was recorded and otherwise the assistant message, and always yields
a close event. -/
def event_generator (s : ServerState) (chat_id : String)
    (frags : List String) (outcome : GenOutcome) :
    List Event × ServerState :=
  let full_answer := frags.foldl (fun acc txt => acc ++ txt) ""
  let tryEvents := frags.map Event.message
  let excStep : List Event × Option String :=
    match outcome with
    | .success => ([], none)
    | .unicodeError => ([], none)
    | .otherError e => ([Event.error], some e)
  let sFinal :=
    match excStep.2 with
    | some e => histAppend s chat_id ⟨Role.system, e⟩
    | none => histAppend s chat_id ⟨Role.ai, full_answer⟩
  (tryEvents ++ excStep.1 ++ [Event.close], sFinal)

/-- The two success shapes of `stream_ask_a_question`: the
EventSourceResponse wrapping the generator, or the bare
`{"event": "error"}` dict returned when the Llama constructor raises. -/
inductive StreamResponse where
  | events (evs : List Event) (s : ServerState)
  | errorDict (s : ServerState)
deriving DecidableEq, Repr

/-- chat.py `stream_ask_a_question`: ownership check, existence-set check,
`_try_get_chat`, appending the human message when the prompt is
non-empty, then the Llama constructor (whose success or ValueError text
is the `llamaInit` parameter) — on constructor failure the error text is
appended as a system message and the error dict returned — and finally
the event generator fed by the engine (its fragments and termination are
the `frags` and `outcome` parameters). -/
def stream_ask_a_question (s : ServerState) (u : User)
    (chat_id prompt : String) (llamaInit : Except String Unit)
    (frags : List String) (outcome : GenOutcome) :
    Except ApiError StreamResponse :=
  if chat_id ∉ u.chats.map (fun x => x.chat_id) then .error .unauthorized
  else if chat_id ∉ s.chatSet then .error (.valueError "Chat does not exist")
  else
    match lookup s.blobs chat_id with
    | none => .error (.valueError "Chat blob missing")
    | some chat =>
      let s₁ :=
        if prompt.length > 0 then histAppend s chat.id ⟨Role.human, prompt⟩
        else s
      match llamaInit with
      | .error e => .ok (.errorDict (histAppend s₁ chat.id ⟨Role.system, e⟩))
      | .ok _ =>
        let step := event_generator s₁ chat.id frags outcome
        .ok (.events step.1 step.2)

/-- Projection: the event list delivered to the caller, when the response
is a stream. -/
def respEvents : Except ApiError StreamResponse → Option (List Event)
  | .ok (.events evs _) => some evs
  | _ => none

/-- Projection: the server state after a successful response (stream or
error dict). -/
def respState : Except ApiError StreamResponse → Option ServerState
  | .ok (.events _ s) => some s
  | .ok (.errorDict s) => some s
  | _ => none

/-- Does an operation fail with the 202 "chat in progress" conflict? -/
def isConflict {α : Type} : Except ApiError α → Bool
  | .error (.conflict _) => true
  | _ => false

/-- Did an operation succeed? -/
def isOkE {α : Type} : Except ApiError α → Bool
  | .ok _ => true
  | _ => false

/-- The error an operation failed with, if any. -/
def errOf {α : Type} : Except ApiError α → Option ApiError
  | .error e => some e
  | _ => none

/-! ## Store lemmas -/

theorem lookup_setEntry_self {α : Type} (l : List (String × α)) (k : String)
    (v : α) : lookup (setEntry l k v) k = some v := by
  induction l with
  | nil => simp [setEntry, lookup, List.find?]
  | cons p rest ih =>
    obtain ⟨k₁, v₁⟩ := p
    by_cases h : k₁ == k
    · simp [setEntry, h, lookup, List.find?]
    · simpa [setEntry, h, lookup, List.find?] using ih

theorem lookup_removeEntry_self {α : Type} (l : List (String × α))
    (k : String) : lookup (removeEntry l k) k = none := by
  have hnone : (removeEntry l k).find? (fun p => p.1 == k) = none := by
    rw [List.find?_eq_none]
    intro x hx
    have hk := (List.mem_filter.mp hx).2
    simp only [bne_iff_ne, ne_eq] at hk
    simp [hk]
  simp [lookup, hnone]

theorem histGet_histAppend_self (s : ServerState) (cid : String)
    (m : Message) : histGet (histAppend s cid m) cid = histGet s cid ++ [m] := by
  simp [histGet, histAppend, lookup_setEntry_self]

theorem histGet_histClear_self (s : ServerState) (cid : String) :
    histGet (histClear s cid) cid = [] := by
  simp [histGet, histClear, lookup_removeEntry_self]

theorem histGet_replay (cid : String) (l : List Message) (s₀ : ServerState) :
    histGet (l.foldl (fun st m => histAppend st cid m) s₀) cid
      = histGet s₀ cid ++ l := by
  induction l generalizing s₀ with
  | nil => simp
  | cons m ms ih => simp [List.foldl, ih, histGet_histAppend_self]

/-! ## C2: anonymous fallback of the identity layer -/

/-- C2: `get_current_active_user` (resolveIdentityOrAnonymous) never fails:
whenever the system user exists in the user store, it always resolves some
user, and whenever the token cookie is absent, empty, or rejected by
`get_current_user` (malformed, expired, no subject, or unknown user), the
resolved user is exactly the distinguished "system" user. -/
theorem get_current_active_user_total (decode : String → DecodeResult)
    (db : List User) (cookie : Option String) (sys : User)
    (hsys : get_user db "system" = some sys) :
    (∃ u, get_current_active_user decode db cookie = some u) ∧
    ((cookie = none ∨ cookie = some "" ∨
      (∃ t, cookie = some t ∧ get_current_user decode db t = .error ())) →
     get_current_active_user decode db cookie = some sys) := by
  constructor
  · match cookie with
    | none => exact ⟨sys, by simpa [get_current_active_user] using hsys⟩
    | some t =>
      by_cases ht : t = ""
      · exact ⟨sys, by simpa [get_current_active_user, ht] using hsys⟩
      · match hgc : get_current_user decode db t with
        | .ok u => exact ⟨u, by simp [get_current_active_user, ht, hgc]⟩
        | .error e =>
          exact ⟨sys, by simpa [get_current_active_user, ht, hgc] using hsys⟩
  · rintro (hc | hc | ⟨t, hc, hfail⟩)
    · subst hc; simpa [get_current_active_user] using hsys
    · subst hc; simpa [get_current_active_user] using hsys
    · subst hc
      by_cases ht : t = ""
      · simpa [get_current_active_user, ht] using hsys
      · simpa [get_current_active_user, ht, hfail] using hsys

/-- Witness for C2 at a concrete store, decoder and cookie. -/
def c2Sys : User := { username := "system", auth := [⟨0, ""⟩], chats := [] }

def c2Db : List User := [c2Sys, { username := "bob", auth := [], chats := [] }]

def c2Decode : String → DecodeResult := fun _ => .jwtError

theorem get_current_active_user_total_witness :
    (∃ u, get_current_active_user c2Decode c2Db (some "badtoken") = some u) ∧
    ((some "badtoken" = none ∨ some "badtoken" = some "" ∨
      (∃ t, some "badtoken" = some t ∧
        get_current_user c2Decode c2Db t = .error ())) →
     get_current_active_user c2Decode c2Db (some "badtoken") = some c2Sys) :=
  get_current_active_user_total c2Decode c2Db (some "badtoken") c2Sys (by decide)

/-! ## C3: the authentication decision -/

/-- Formalization of the claim's "credential variant matches": a
Passwordless row always matches, a Password row matches when the submitted
password verifies against its stored secret, a Reserved row never
matches. -/
def credMatches (verify : String → String → Bool) (password : String)
    (a : AuthRow) : Bool :=
  if a.auth_type = 0 then true
  else if a.auth_type = 1 then verify password a.secret
  else false

def c3Verify : String → String → Bool := fun p s => p == s

def c3User : User := { username := "u", auth := [⟨1, "s1"⟩, ⟨1, "s2"⟩], chats := [] }

def c3Db : List User := [c3User]

/-- C3 counterexample: the user holds two Password credentials and the
submitted password matches the second one — so at least one credential
variant in C(U) matches — yet `authenticate_user` denies access, because
the code only ever consults the FIRST auth row of type 1. -/
theorem authenticate_user_counterexample :
    c3User.auth.any (credMatches c3Verify "s2") = true ∧
    authenticate_user c3Verify c3Db "u" "s2" = .denied := by
  decide

theorem find?_eq_filter_head? {α : Type} (p : α → Bool) (l : List α) :
    l.find? p = (l.filter p).head? := by
  induction l with
  | nil => rfl
  | cons a l ih =>
    cases hpa : p a with
    | true => simp only [List.find?, List.filter, hpa, List.head?]
    | false =>
      simp only [List.find?, List.filter, hpa]
      exact ih

/-- C3 amended: for a user the store knows, `authenticate_user` grants
access iff the user holds a Passwordless credential (in which case any
submitted password is accepted), or the FIRST Password credential row
verifies the submitted password — later Password rows are never
consulted.  The outcome for a known user is never `noUser`, and a user
all of whose rows are Reserved is always denied. -/
theorem authenticate_user_spec (verify : String → String → Bool)
    (db : List User) (username password : String) (user : User)
    (h : get_user db username = some user) :
    (authenticate_user verify db username password = .granted user ↔
      (0 ∈ user.auth.map (fun a => a.auth_type) ∨
       ∃ a, user.auth.find? (fun x => x.auth_type == 1) = some a ∧
         verify password a.secret = true)) ∧
    (authenticate_user verify db username password = .granted user ∨
     authenticate_user verify db username password = .denied) ∧
    ((∀ a ∈ user.auth, a.auth_type = 2) →
      authenticate_user verify db username password = .denied) := by
  have hfind := find?_eq_filter_head? (fun x : AuthRow => x.auth_type == 1) user.auth
  by_cases h0 : 0 ∈ user.auth.map (fun a => a.auth_type)
  · have hres : authenticate_user verify db username password = .granted user := by
      simp [authenticate_user, h, h0]
    refine ⟨?_, Or.inl hres, ?_⟩
    · rw [hres]
      exact iff_of_true rfl (Or.inl h0)
    · intro h2
      exfalso
      obtain ⟨a, ha, ha0⟩ := List.mem_map.mp h0
      exact absurd (h2 a ha) (by omega)
  · match hfil : user.auth.filter (fun x => x.auth_type == 1) with
    | [] =>
      have hres : authenticate_user verify db username password = .denied := by
        simp [authenticate_user, h, h0, hfil]
      rw [hfil] at hfind
      refine ⟨?_, Or.inr hres, fun _ => hres⟩
      simp [hres, h0, hfind]
    | a :: tail =>
      rw [hfil] at hfind
      have h2 : ¬∀ x ∈ user.auth, x.auth_type = 2 := by
        intro hall
        have ha : a ∈ user.auth.filter (fun x => x.auth_type == 1) := by
          rw [hfil]; exact List.mem_cons_self a tail
        have hmem := List.mem_filter.mp ha
        have h1 : a.auth_type = 1 := by simpa using hmem.2
        have := hall a hmem.1
        omega
      by_cases hv : verify password a.secret
      · have hres : authenticate_user verify db username password = .granted user := by
          simp [authenticate_user, h, h0, hfil, hv]
        exact ⟨by simp [hres, hfind, hv], Or.inl hres, fun hall => absurd hall h2⟩
      · have hres : authenticate_user verify db username password = .denied := by
          simp [authenticate_user, h, h0, hfil, hv]
        refine ⟨?_, Or.inr hres, fun hall => absurd hall h2⟩
        rw [hres]
        simp only [hfind]
        constructor
        · intro hfalse; exact absurd hfalse (by simp)
        · rintro (hc | ⟨b, hb, hbv⟩)
          · exact absurd hc h0
          · exfalso
            have hab : a = b := by simpa using hb
            rw [← hab] at hbv
            exact absurd hbv (by simp [hv])

/-- Witness for C3-amended at a concrete store: "carol" holds a
Passwordless row, so any password is accepted. -/
def c3CUser : User := { username := "carol", auth := [⟨0, ""⟩, ⟨2, ""⟩], chats := [] }

def c3CDb : List User := [c3CUser]

theorem authenticate_user_spec_witness :
    (authenticate_user c3Verify c3CDb "carol" "anything" = .granted c3CUser ↔
      (0 ∈ c3CUser.auth.map (fun a => a.auth_type) ∨
       ∃ a, c3CUser.auth.find? (fun x => x.auth_type == 1) = some a ∧
         c3Verify "anything" a.secret = true)) ∧
    (authenticate_user c3Verify c3CDb "carol" "anything" = .granted c3CUser ∨
     authenticate_user c3Verify c3CDb "carol" "anything" = .denied) ∧
    ((∀ a ∈ c3CUser.auth, a.auth_type = 2) →
      authenticate_user c3Verify c3CDb "carol" "anything" = .denied) :=
  authenticate_user_spec c3Verify c3CDb "carol" "anything" c3CUser (by decide)

/-! ## Concrete fixtures used by counterexamples and witnesses -/

def exParams : ChatParameters := {
  model_path := "7B", init_prompt := "X", top_k := 50, max_tokens := 16,
  n_ctx := 512, last_n_tokens_size := 64, n_threads := 4 }

def exChat : Chat := { id := "c1", owner := "alice", created := 5, params := exParams }

def exState : ServerState := {
  chatSet := ["c1"], blobs := [("c1", exChat)],
  histories := [("c1", [⟨Role.system, "X"⟩, ⟨Role.human, "hi"⟩])],
  refs := [⟨"c1", "alice"⟩] }

def exUser : User := { username := "alice", auth := [], chats := [⟨"c1", "alice"⟩] }

/-! ## C5: transcript truncation (`delete_prompt`) -/

/-- Formalization of the claim's "idx is out of range against the
transcript length": `idx` is not one of the positions `0 ≤ idx < length`
of the transcript at call time. -/
def c5OutOfRange (idx : Int) (len : Nat) : Prop := idx < 0 ∨ (len : Int) ≤ idx

/-- C5 exactly as stated: truncation fails with the Conflict error iff
`idx` is out of range, and on success the transcript is the first `idx`
messages of the prior transcript. -/
def c5ClaimStatement : Prop :=
  ∀ (s : ServerState) (u : User) (chat_id : String) (idx : Int),
    chat_id ∈ u.chats.map (fun x => x.chat_id) →
    ((isConflict (delete_prompt s u chat_id idx) = true ↔
        c5OutOfRange idx (histGet s chat_id).length) ∧
     ∀ s', delete_prompt s u chat_id idx = .ok s' →
       histGet s' chat_id = (histGet s chat_id).take idx.toNat)

/-- C5 counterexample: `idx` is a Python int, and at `idx = -1` against a
two-message transcript `delete_prompt` neither rejects (although `-1` is
not a position of the transcript) nor keeps "the first idx messages": the
Python slice `[:-1]` keeps the first of the two messages. -/
theorem delete_prompt_counterexample : ¬ c5ClaimStatement := by
  intro h
  have hok : delete_prompt exState exUser "c1" (-1) =
      .ok { exState with histories := [("c1", [⟨Role.system, "X"⟩])] } := by
    rfl
  exact absurd ((h exState exUser "c1" (-1) (by decide)).2 _ hok) (by decide)

/-- C5 amended: for an authorized chat, `delete_prompt` fails with the
Conflict error iff `length ≤ idx`; on success the transcript becomes the
Python-slice prefix `messages[:idx]`, which for `0 ≤ idx` is exactly the
first `idx` messages, and for negative `idx` is all but the last `-idx`
messages (clamped at empty). -/
theorem delete_prompt_spec (s : ServerState) (u : User) (chat_id : String)
    (idx : Int) (hauth : chat_id ∈ u.chats.map (fun x => x.chat_id)) :
    (isConflict (delete_prompt s u chat_id idx) = true ↔
      ((histGet s chat_id).length : Int) ≤ idx) ∧
    (∀ s', delete_prompt s u chat_id idx = .ok s' →
      histGet s' chat_id = pySliceTo (histGet s chat_id) idx) ∧
    (0 ≤ idx → ∀ s', delete_prompt s u chat_id idx = .ok s' →
      histGet s' chat_id = (histGet s chat_id).take idx.toNat) := by
  by_cases hlen : ((histGet s chat_id).length : Int) ≤ idx
  · have hres : delete_prompt s u chat_id idx =
        .error (.conflict "Unable to delete message, chat in progress") := by
      simp [delete_prompt, hauth, hlen]
    refine ⟨by simp [hres, isConflict, hlen], ?_, ?_⟩
    · intro s' hs'
      rw [hres] at hs'
      exact absurd hs' (by simp)
    · intro _ s' hs'
      rw [hres] at hs'
      exact absurd hs' (by simp)
  · have hres : delete_prompt s u chat_id idx =
        .ok ((pySliceTo (histGet s chat_id) idx).foldl
          (fun st m => histAppend st chat_id m) (histClear s chat_id)) := by
      simp [delete_prompt, hauth, hlen]
    have hget : histGet ((pySliceTo (histGet s chat_id) idx).foldl
        (fun st m => histAppend st chat_id m) (histClear s chat_id)) chat_id
        = pySliceTo (histGet s chat_id) idx := by
      rw [histGet_replay, histGet_histClear_self]
      simp
    refine ⟨by simp [hres, isConflict, hlen], ?_, ?_⟩
    · intro s' hs'
      rw [hres] at hs'
      injection hs' with hs'
      rw [← hs']
      exact hget
    · intro hpos s' hs'
      rw [hres] at hs'
      injection hs' with hs'
      rw [← hs', hget]
      simp [pySliceTo, hpos]

/-- Witness for C5-amended at `idx = 1` on a two-message transcript. -/
theorem delete_prompt_spec_witness :
    (isConflict (delete_prompt exState exUser "c1" 1) = true ↔
      ((histGet exState "c1").length : Int) ≤ 1) ∧
    (∀ s', delete_prompt exState exUser "c1" 1 = .ok s' →
      histGet s' "c1" = pySliceTo (histGet exState "c1") 1) ∧
    (0 ≤ (1 : Int) → ∀ s', delete_prompt exState exUser "c1" 1 = .ok s' →
      histGet s' "c1" = (histGet exState "c1").take (1 : Int).toNat) :=
  delete_prompt_spec exState exUser "c1" 1 (by decide)

/-! ## C6: session deletion (`delete_chat`) -/

theorem delete_chat_eq (s : ServerState) (u : User) (chat_id : String)
    (hauth : chat_id ∈ u.chats.map (fun x => x.chat_id))
    (hset : chat_id ∈ s.chatSet) :
    delete_chat s u chat_id = .ok {
      chatSet := s.chatSet.filter (fun c => c != chat_id),
      blobs := removeEntry s.blobs chat_id,
      histories := removeEntry s.histories chat_id,
      refs := match u.chats.find? (fun x => x.chat_id == chat_id) with
              | some cid => s.refs.erase cid
              | none => s.refs } := by
  rcases hfind : u.chats.find? (fun x => x.chat_id == chat_id) with _ | cid <;>
    simp [delete_chat, hauth, hset, hfind, histClear]

/-- C6 counterexample: on a state holding exactly one live chat "c1"
owned by the caller, the first `delete_chat` succeeds but the second call
on the same id raises `ValueError("Chat does not exist")` instead of
being a no-op success. -/
theorem delete_chat_counterexample :
    isOkE (delete_chat exState exUser "c1") = true ∧
    errOf ((delete_chat exState exUser "c1").bind
        (fun s₁ => delete_chat s₁ exUser "c1"))
      = some (.valueError "Chat does not exist") := by
  decide

/-- C6 amended: deleting a live owned chat succeeds and leaves no
transcript, no session blob and no existence-set membership — but the
operation is NOT idempotent: a second `delete_chat` on the same id fails
with `ValueError("Chat does not exist")` rather than succeeding. -/
theorem delete_chat_spec (s : ServerState) (u : User) (chat_id : String)
    (hauth : chat_id ∈ u.chats.map (fun x => x.chat_id))
    (hset : chat_id ∈ s.chatSet) :
    ∃ s', delete_chat s u chat_id = .ok s' ∧
      histGet s' chat_id = [] ∧
      lookup s'.blobs chat_id = none ∧
      chat_id ∉ s'.chatSet ∧
      delete_chat s' u chat_id = .error (.valueError "Chat does not exist") := by
  refine ⟨_, delete_chat_eq s u chat_id hauth hset, ?_, ?_, ?_, ?_⟩
  · simp [histGet, lookup_removeEntry_self]
  · simp [lookup_removeEntry_self]
  · simp [List.mem_filter]
  · have hnot : chat_id ∉ s.chatSet.filter (fun c => c != chat_id) := by
      simp [List.mem_filter]
    simp [delete_chat, hauth, hnot]

/-- Witness for C6-amended on the one-chat fixture. -/
theorem delete_chat_spec_witness :
    ∃ s', delete_chat exState exUser "c1" = .ok s' ∧
      histGet s' "c1" = [] ∧
      lookup s'.blobs "c1" = none ∧
      "c1" ∉ s'.chatSet ∧
      delete_chat s' exUser "c1" = .error (.valueError "Chat does not exist") :=
  delete_chat_spec exState exUser "c1" (by decide) (by decide)

/-! ## C7: session creation (`create_new_chat`) -/

theorem create_new_chat_eq (s : ServerState) (u : User)
    (params : ChatParameters) (created : Nat) (newId : String) :
    create_new_chat s u params created newId true = .ok (
      { chatSet := if newId ∈ s.chatSet then s.chatSet else s.chatSet ++ [newId],
        blobs := setEntry s.blobs newId
          { id := newId, owner := u.username, created := created, params := params },
        histories := setEntry s.histories newId
          ((lookup s.histories newId).getD [] ++ [⟨Role.system, params.init_prompt⟩]),
        refs := s.refs ++ [⟨newId, u.username⟩] },
      { u with chats := u.chats ++ [⟨newId, u.username⟩] },
      newId) := by
  simp [create_new_chat, histAppend, histGet]

/-- C7: immediately after `create_new_chat` succeeds on a fresh chat id,
the new chat's transcript is exactly one system-role message whose
content is the init_prompt. -/
theorem create_new_chat_spec (s : ServerState) (u : User)
    (params : ChatParameters) (created : Nat) (newId : String)
    (hfresh : lookup s.histories newId = none) :
    ∃ s' u', create_new_chat s u params created newId true = .ok (s', u', newId) ∧
      histGet s' newId = [⟨Role.system, params.init_prompt⟩] := by
  refine ⟨_, _, create_new_chat_eq s u params created newId, ?_⟩
  simp [histGet, lookup_setEntry_self, hfresh]

/-- Witness for C7: creating chat "c9" on the one-chat fixture. -/
theorem create_new_chat_spec_witness :
    ∃ s' u', create_new_chat exState exUser exParams 7 "c9" true = .ok (s', u', "c9") ∧
      histGet s' "c9" = [⟨Role.system, exParams.init_prompt⟩] :=
  create_new_chat_spec exState exUser exParams 7 "c9" (by decide)

/-! ## C8: bulk deletion (`delete_all_chats`) -/

/-- C8: the bulk delete is a no-op.  `delete_all_chats` returns success
with the state unchanged for every caller, and in particular on a state
where the caller owns the live chat "c1" — whose relational ref, session
blob, transcript and existence-set membership all remain afterwards —
even though a single awaited `delete_chat` on the same input would have
succeeded: the list comprehension never awaits the async coroutines it
builds. -/
theorem delete_all_chats_noop :
    (∀ (s : ServerState) (u : User), delete_all_chats s u = (s, true)) ∧
    delete_all_chats exState exUser = (exState, true) ∧
    "c1" ∈ exState.chatSet ∧
    histGet exState "c1" ≠ [] ∧
    (lookup exState.blobs "c1").isSome = true ∧
    exState.refs ≠ [] ∧
    isOkE (delete_chat exState exUser "c1") = true := by
  exact ⟨fun s u => rfl, by decide, by decide, by decide, by decide, by decide, by decide⟩

/-! ## C1: terminal events of the stream -/

/-- Formalization of C1 as stated: the delivered stream is zero or more
message-fragment events followed by exactly one terminal event, a close
or an error but never both. -/
def terminalShape (evs : List Event) : Prop :=
  ∃ (frags : List String) (t : Event),
    evs = frags.map Event.message ++ [t] ∧ (t = Event.close ∨ t = Event.error)

/-- C1 counterexample: when generation fails with a non-benign exception,
the generator yields the error event AND then the close event from the
finally block, so the delivered stream `[error, close]` carries two
terminal events and does not match the claimed shape. -/
theorem stream_terminal_counterexample :
    respEvents (stream_ask_a_question exState exUser "c1" "" (.ok ())
      [] (.otherError "boom")) = some [Event.error, Event.close] ∧
    ¬ terminalShape [Event.error, Event.close] := by
  refine ⟨rfl, ?_⟩
  rintro ⟨frags, t, heq, _⟩
  cases frags with
  | nil => simp at heq
  | cons a as => simp at heq

theorem respEvents_stream (s : ServerState) (u : User)
    (chat_id prompt : String) (llamaInit : Except String Unit)
    (frags : List String) (outcome : GenOutcome) (evs : List Event)
    (h : respEvents (stream_ask_a_question s u chat_id prompt llamaInit
      frags outcome) = some evs) :
    ∃ s₁ cid, evs = (event_generator s₁ cid frags outcome).1 := by
  unfold stream_ask_a_question at h
  split at h
  · simp [respEvents] at h
  · split at h
    · simp [respEvents] at h
    · split at h
      · simp [respEvents] at h
      · cases llamaInit with
        | error e => simp [respEvents] at h
        | ok _ =>
          simp [respEvents] at h
          exact ⟨_, _, h.symm⟩

theorem count_close_map_message (frags : List String) :
    (frags.map Event.message).count Event.close = 0 := by
  rw [List.count_eq_zero]
  intro hmem
  obtain ⟨a, _, ha⟩ := List.mem_map.mp hmem
  exact absurd ha (by simp)

/-- C1 amended: every delivered event stream is the fragment events, then
on non-benign generation failure exactly one error event, then always
exactly one close event; the close event occurs exactly once and is
always the last event — but on the failure path it FOLLOWS the error
event, so the stream ends error-then-close rather than with a single
terminal event. -/
theorem stream_events_shape (s : ServerState) (u : User)
    (chat_id prompt : String) (llamaInit : Except String Unit)
    (frags : List String) (outcome : GenOutcome) (evs : List Event)
    (h : respEvents (stream_ask_a_question s u chat_id prompt llamaInit
      frags outcome) = some evs) :
    evs = frags.map Event.message
      ++ (match outcome with
          | .otherError _ => [Event.error]
          | _ => [])
      ++ [Event.close] ∧
    evs.count Event.close = 1 ∧
    evs.getLast? = some Event.close := by
  obtain ⟨s₁, cid, hevs⟩ := respEvents_stream s u chat_id prompt llamaInit
    frags outcome evs h
  subst hevs
  refine ⟨?_, ?_, ?_⟩
  · cases outcome <;> simp [event_generator]
  · cases outcome <;>
      simp [event_generator, List.count_append, count_close_map_message,
        List.count_cons, List.count_nil]
  · cases outcome <;>
      simp [event_generator, List.getLast?_append]

/-- Witness for C1-amended: one fragment then a failing generation. -/
theorem stream_events_shape_witness :
    [Event.message "a", Event.error, Event.close]
      = ["a"].map Event.message
        ++ (match GenOutcome.otherError "b" with
            | .otherError _ => [Event.error]
            | _ => [])
        ++ [Event.close] ∧
    ([Event.message "a", Event.error, Event.close]).count Event.close = 1 ∧
    ([Event.message "a", Event.error, Event.close]).getLast? = some Event.close :=
  stream_events_shape exState exUser "c1" "" (.ok ()) ["a"] (.otherError "b")
    [Event.message "a", Event.error, Event.close] rfl

/-! ## C4: what the streaming path commits to the transcript -/

/-- C4: for a streaming generation on an existing, authorized chat whose
blob is keyed by its own id, the transcript afterwards is the prior
transcript, plus the human message exactly when the submitted prompt is
non-empty, plus exactly one further message: the concatenation of all
produced fragments as an assistant message when generation succeeded
(including the swallowed UnicodeDecodeError), or the error text as a
system-role diagnostic when the engine could not be constructed or
generation failed — so the streamed text is never committed on the
failure path. -/
theorem stream_transcript_commit (s : ServerState) (u : User)
    (chat_id prompt : String) (llamaInit : Except String Unit)
    (frags : List String) (outcome : GenOutcome) (chat : Chat)
    (hauth : chat_id ∈ u.chats.map (fun x => x.chat_id))
    (hset : chat_id ∈ s.chatSet)
    (hblob : lookup s.blobs chat_id = some chat)
    (hid : chat.id = chat_id) :
    ∃ s', respState (stream_ask_a_question s u chat_id prompt llamaInit
        frags outcome) = some s' ∧
      histGet s' chat_id =
        histGet s chat_id
        ++ (if prompt.length > 0 then [⟨Role.human, prompt⟩] else [])
        ++ [match llamaInit, outcome with
            | .error e, _ => ⟨Role.system, e⟩
            | .ok _, .otherError e => ⟨Role.system, e⟩
            | .ok _, _ => ⟨Role.ai, frags.foldl (fun acc txt => acc ++ txt) ""⟩] := by
  have hs1get : histGet (if prompt.length > 0 then
        histAppend s chat_id ⟨Role.human, prompt⟩ else s) chat_id
      = histGet s chat_id
        ++ (if prompt.length > 0 then [⟨Role.human, prompt⟩] else []) := by
    by_cases hp : prompt.length > 0 <;> simp [hp, histGet_histAppend_self]
  subst hid
  cases llamaInit with
  | error e =>
    refine ⟨histAppend (if prompt.length > 0 then
        histAppend s chat.id ⟨Role.human, prompt⟩ else s) chat.id
        ⟨Role.system, e⟩, ?_, ?_⟩
    · simp [stream_ask_a_question, hauth, hset, hblob, respState]
    · rw [histGet_histAppend_self, hs1get]
  | ok _ =>
    cases outcome with
    | success =>
      refine ⟨histAppend (if prompt.length > 0 then
          histAppend s chat.id ⟨Role.human, prompt⟩ else s) chat.id
          ⟨Role.ai, frags.foldl (fun acc txt => acc ++ txt) ""⟩, ?_, ?_⟩
      · simp [stream_ask_a_question, hauth, hset, hblob, respState,
          event_generator]
      · rw [histGet_histAppend_self, hs1get]
    | unicodeError =>
      refine ⟨histAppend (if prompt.length > 0 then
          histAppend s chat.id ⟨Role.human, prompt⟩ else s) chat.id
          ⟨Role.ai, frags.foldl (fun acc txt => acc ++ txt) ""⟩, ?_, ?_⟩
      · simp [stream_ask_a_question, hauth, hset, hblob, respState,
          event_generator]
      · rw [histGet_histAppend_self, hs1get]
    | otherError e =>
      refine ⟨histAppend (if prompt.length > 0 then
          histAppend s chat.id ⟨Role.human, prompt⟩ else s) chat.id
          ⟨Role.system, e⟩, ?_, ?_⟩
      · simp [stream_ask_a_question, hauth, hset, hblob, respState,
          event_generator]
      · rw [histGet_histAppend_self, hs1get]

/-- Witness for C4: a successful two-fragment generation with prompt
"hello". -/
theorem stream_transcript_commit_witness :
    ∃ s', respState (stream_ask_a_question exState exUser "c1" "hello"
        (.ok ()) ["a", "b"] .success) = some s' ∧
      histGet s' "c1" =
        histGet exState "c1"
        ++ (if ("hello" : String).length > 0 then [⟨Role.human, "hello"⟩] else [])
        ++ [match (Except.ok () : Except String Unit), GenOutcome.success with
            | .error e, _ => ⟨Role.system, e⟩
            | .ok _, .otherError e => ⟨Role.system, e⟩
            | .ok _, _ => ⟨Role.ai, ["a", "b"].foldl (fun acc txt => acc ++ txt) ""⟩] :=
  stream_transcript_commit exState exUser "c1" "hello" (.ok ()) ["a", "b"]
    .success exChat (by decide) (by decide) (by decide) (by decide)

/-! ## C10: the UnicodeDecodeError is benign -/

/-- C10: when the only exception during fragment production is a
UnicodeDecodeError, the whole response is literally the success-path
response: the delivered stream is the fragment events followed by a
single close event with no error event anywhere, and the fragments
produced before the exception are committed as the assistant message —
no diagnostic message is recorded. -/
theorem stream_unicode_benign (s : ServerState) (u : User)
    (chat_id prompt : String) (frags : List String) (chat : Chat)
    (hauth : chat_id ∈ u.chats.map (fun x => x.chat_id))
    (hset : chat_id ∈ s.chatSet)
    (hblob : lookup s.blobs chat_id = some chat)
    (hid : chat.id = chat_id) :
    stream_ask_a_question s u chat_id prompt (.ok ()) frags .unicodeError
      = stream_ask_a_question s u chat_id prompt (.ok ()) frags .success ∧
    respEvents (stream_ask_a_question s u chat_id prompt (.ok ()) frags
      .unicodeError) = some (frags.map Event.message ++ [Event.close]) ∧
    Event.error ∉ frags.map Event.message ++ [Event.close] ∧
    ∃ s', respState (stream_ask_a_question s u chat_id prompt (.ok ())
        frags .unicodeError) = some s' ∧
      histGet s' chat_id =
        histGet s chat_id
        ++ (if prompt.length > 0 then [⟨Role.human, prompt⟩] else [])
        ++ [⟨Role.ai, frags.foldl (fun acc txt => acc ++ txt) ""⟩] := by
  subst hid
  refine ⟨rfl, ?_, ?_, ?_⟩
  · simp [stream_ask_a_question, hauth, hset, hblob, respEvents,
      event_generator]
  · intro hmem
    rcases List.mem_append.mp hmem with hmem | hmem
    · obtain ⟨a, _, ha⟩ := List.mem_map.mp hmem
      exact absurd ha (by simp)
    · simp at hmem
  · have hs1get : histGet (if prompt.length > 0 then
        histAppend s chat.id ⟨Role.human, prompt⟩ else s) chat.id
      = histGet s chat.id
        ++ (if prompt.length > 0 then [⟨Role.human, prompt⟩] else []) := by
      by_cases hp : prompt.length > 0 <;> simp [hp, histGet_histAppend_self]
    refine ⟨histAppend (if prompt.length > 0 then
        histAppend s chat.id ⟨Role.human, prompt⟩ else s) chat.id
        ⟨Role.ai, frags.foldl (fun acc txt => acc ++ txt) ""⟩, ?_, ?_⟩
    · simp [stream_ask_a_question, hauth, hset, hblob, respState,
        event_generator]
    · rw [histGet_histAppend_self, hs1get]

/-- Witness for C10: two fragments then a UnicodeDecodeError. -/
theorem stream_unicode_benign_witness :
    stream_ask_a_question exState exUser "c1" "q" (.ok ()) ["a", "b"]
        .unicodeError
      = stream_ask_a_question exState exUser "c1" "q" (.ok ()) ["a", "b"]
        .success ∧
    respEvents (stream_ask_a_question exState exUser "c1" "q" (.ok ())
      ["a", "b"] .unicodeError)
      = some (["a", "b"].map Event.message ++ [Event.close]) ∧
    Event.error ∉ ["a", "b"].map Event.message ++ [Event.close] ∧
    ∃ s', respState (stream_ask_a_question exState exUser "c1" "q" (.ok ())
        ["a", "b"] .unicodeError) = some s' ∧
      histGet s' "c1" =
        histGet exState "c1"
        ++ (if ("q" : String).length > 0 then [⟨Role.human, "q"⟩] else [])
        ++ [⟨Role.ai, ["a", "b"].foldl (fun acc txt => acc ++ txt) ""⟩] :=
  stream_unicode_benign exState exUser "c1" "q" ["a", "b"] exChat
    (by decide) (by decide) (by decide) (by decide)

/-! ## C9: listing sessions (`get_all_chats`) -/

/-- The blob store entry for a chat id exists and is keyed by its own
id. -/
def blobOk (s : ServerState) (cid : String) : Bool :=
  match lookup s.blobs cid with
  | some ch => ch.id == cid
  | none => false

theorem get_specific_chat_ok (s : ServerState) (u : User) (x : UserChat)
    (ch : Chat) (hmem : x ∈ u.chats) (hset : x.chat_id ∈ s.chatSet)
    (hblob : lookup s.blobs x.chat_id = some ch) :
    get_specific_chat s u x.chat_id =
      .ok { id := ch.id, owner := ch.owner, created := ch.created,
            params := ch.params, history := histGet s ch.id } := by
  have hauth : x.chat_id ∈ u.chats.map (fun y => y.chat_id) :=
    List.mem_map.mpr ⟨x, hmem, rfl⟩
  simp [get_specific_chat, hauth, hset, hblob]

theorem collectChats_ok (s : ServerState) (u : User) :
    ∀ l : List UserChat,
      (∀ x ∈ l, ∃ d, get_specific_chat s u x.chat_id = .ok d) →
      ∃ ds, collectChats s u l = .ok ds ∧
        List.Forall₂ (fun (x : UserChat) (d : ChatDict) =>
          get_specific_chat s u x.chat_id = .ok d) l ds := by
  intro l
  induction l with
  | nil => exact fun _ => ⟨[], rfl, List.Forall₂.nil⟩
  | cons x xs ih =>
    intro h
    obtain ⟨d, hd⟩ := h x (List.mem_cons_self x xs)
    obtain ⟨ds, hds, hfa⟩ := ih (fun y hy => h y (List.mem_cons_of_mem x hy))
    refine ⟨d :: ds, ?_, List.Forall₂.cons hd hfa⟩
    simp only [collectChats, hd, hds]
    rfl

theorem forall₂_mem_right {α β : Type} {R : α → β → Prop} :
    ∀ {l : List α} {ds : List β}, List.Forall₂ R l ds →
      ∀ d ∈ ds, ∃ x ∈ l, R x d := by
  intro l ds h
  induction h with
  | nil => intro d hd; simp at hd
  | cons hR _ ih =>
    intro d hd
    rcases List.mem_cons.mp hd with hd | hd
    · exact ⟨_, List.mem_cons_self _ _, hd ▸ hR⟩
    · obtain ⟨x, hx, hR'⟩ := ih d hd
      exact ⟨x, List.mem_cons_of_mem _ hx, hR'⟩

theorem forall₂_map_eq {α β γ : Type} {R : α → β → Prop} (f : α → γ)
    (g : β → γ) (hfg : ∀ x d, R x d → f x = g d) :
    ∀ {l : List α} {ds : List β}, List.Forall₂ R l ds →
      l.map f = ds.map g := by
  intro l ds h
  induction h with
  | nil => rfl
  | cons hR _ ih => simp [List.map, hfg _ _ hR, ih]

theorem forall₂_imp_mem {α β : Type} {R S : α → β → Prop} :
    ∀ {l : List α} {ds : List β}, List.Forall₂ R l ds →
      (∀ x ∈ l, ∀ d, R x d → S x d) → List.Forall₂ S l ds := by
  intro l ds h
  induction h with
  | nil => exact fun _ => .nil
  | cons hR _ ih =>
    intro himp
    exact .cons (himp _ (List.mem_cons_self _ _) _ hR)
      (ih fun x hx d hR' => himp x (List.mem_cons_of_mem _ hx) d hR')

/-- C9: when every owned chat is live and its blob is keyed consistently,
`get_all_chats` succeeds with one summary per owned chat (the summary ids
are a permutation of the owned chat ids), the summaries are ordered by
`created` descending, and each summary's subtitle is the content of the
most recent transcript message of its chat, or the empty string when the
transcript is empty. -/
theorem get_all_chats_spec (s : ServerState) (u : User)
    (h : ∀ x ∈ u.chats, x.chat_id ∈ s.chatSet ∧ blobOk s x.chat_id = true) :
    ∃ res, get_all_chats s u = .ok res ∧
      (res.map (fun y => y.id)).Perm (u.chats.map (fun x => x.chat_id)) ∧
      res.Pairwise (fun a b => b.created ≤ a.created) ∧
      ∀ y ∈ res, y.subtitle =
        match (histGet s y.id).getLast? with
        | none => ""
        | some m => m.content := by
  have hext : ∀ x ∈ u.chats, ∃ ch, lookup s.blobs x.chat_id = some ch ∧
      ch.id = x.chat_id := by
    intro x hx
    have hb := (h x hx).2
    unfold blobOk at hb
    match hl : lookup s.blobs x.chat_id with
    | some ch =>
      rw [hl] at hb
      exact ⟨ch, rfl, by simpa using hb⟩
    | none => rw [hl] at hb; simp at hb
  obtain ⟨ds, hds, hfa⟩ := collectChats_ok s u u.chats (by
    intro x hx
    obtain ⟨ch, hch, _⟩ := hext x hx
    exact ⟨_, get_specific_chat_ok s u x ch hx (h x hx).1 hch⟩)
  have hS : List.Forall₂ (fun (x : UserChat) (d : ChatDict) =>
      d.id = x.chat_id ∧ d.history = histGet s d.id) u.chats ds := by
    refine forall₂_imp_mem hfa ?_
    intro x hx d hR
    obtain ⟨ch, hch, hchid⟩ := hext x hx
    have hok := get_specific_chat_ok s u x ch hx (h x hx).1 hch
    rw [hok] at hR
    injection hR with hR
    constructor
    · rw [← hR]; exact hchid
    · rw [← hR]
  have hres : get_all_chats s u =
      .ok ((ds.mergeSort (fun a b => b.created ≤ a.created)).map summarize) := by
    simp only [get_all_chats, hds]
    rfl
  refine ⟨_, hres, ?_, ?_, ?_⟩
  · have hmapid : (((ds.mergeSort (fun a b => b.created ≤ a.created)).map
        summarize).map (fun y => y.id))
        = ((ds.mergeSort (fun a b => b.created ≤ a.created)).map
            (fun d => d.id)) := by
      simp [List.map_map]
      exact fun a _ => rfl
    rw [hmapid]
    have hperm : ((ds.mergeSort (fun a b => b.created ≤ a.created)).map
        (fun d => d.id)).Perm (ds.map (fun d => d.id)) :=
      (List.mergeSort_perm ds (fun a b => b.created ≤ a.created)).map _
    have heq : u.chats.map (fun x => x.chat_id) = ds.map (fun d => d.id) :=
      forall₂_map_eq (fun x => x.chat_id) (fun d => d.id)
        (fun x d hxd => hxd.1.symm) hS
    rw [heq]
    exact hperm
  · have htrans : ∀ (a b c : ChatDict),
        (decide (b.created ≤ a.created)) = true →
        (decide (c.created ≤ b.created)) = true →
        (decide (c.created ≤ a.created)) = true := by
      intro a b c hab hbc
      simp at hab hbc ⊢
      omega
    have htotal : ∀ (a b : ChatDict),
        ((decide (b.created ≤ a.created)) || (decide (a.created ≤ b.created)))
          = true := by
      intro a b
      simpa using Nat.le_total b.created a.created
    have hsorted := @List.sorted_mergeSort ChatDict
      (fun a b => decide (b.created ≤ a.created)) htrans htotal ds
    refine List.Pairwise.map summarize ?_ hsorted
    intro a b hab
    simpa [summarize] using hab
  · intro y hy
    obtain ⟨d, hd, hyd⟩ := List.mem_map.mp hy
    have hdds : d ∈ ds :=
      (List.mergeSort_perm ds (fun a b => b.created ≤ a.created)).mem_iff.mp hd
    obtain ⟨x, _, hxd⟩ := forall₂_mem_right hS d hdds
    rw [← hyd]
    have hid2 : (summarize d).id = d.id := rfl
    rw [hid2, ← hxd.2]
    rfl

/-- Second fixture chat, created later (T1 = 5 < T2 = 9) with an empty
transcript. -/
def exParams2 : ChatParameters := {
  model_path := "13B", init_prompt := "Y", top_k := 50, max_tokens := 16,
  n_ctx := 512, last_n_tokens_size := 64, n_threads := 4 }

def exChat2 : Chat := { id := "c2", owner := "alice", created := 9, params := exParams2 }

def exState2 : ServerState := {
  chatSet := ["c1", "c2"],
  blobs := [("c1", exChat), ("c2", exChat2)],
  histories := [("c1", [⟨Role.system, "X"⟩, ⟨Role.ai, "hello"⟩])],
  refs := [⟨"c1", "alice"⟩, ⟨"c2", "alice"⟩] }

def exUser2 : User := {
  username := "alice", auth := [],
  chats := [⟨"c1", "alice"⟩, ⟨"c2", "alice"⟩] }

/-- Witness for C9: two chats created at 5 < 9, one with a transcript
ending in "hello" and one with an empty transcript. -/
theorem get_all_chats_spec_witness :
    ∃ res, get_all_chats exState2 exUser2 = .ok res ∧
      (res.map (fun y => y.id)).Perm (exUser2.chats.map (fun x => x.chat_id)) ∧
      res.Pairwise (fun a b => b.created ≤ a.created) ∧
      ∀ y ∈ res, y.subtitle =
        match (histGet exState2 y.id).getLast? with
        | none => ""
        | some m => m.content :=
  get_all_chats_spec exState2 exUser2 (by decide)
